import Mathlib

/-!
Shallow embedding of `src/main.py`, a FastAPI service with a single
`POST /calculate` endpoint computing Mean Arterial Pressure (MAP).

Modelling decisions:
* Python `int` is `Int`.
* Python `float` is modelled as `ℚ`.  This is faithful here because the raw
  formula value `(s + 2*d)/3` with integer `s`, `d` has fractional part
  `0`, `1/3` or `2/3`, so `10 * value` is never exactly a half-integer: its
  distance from the nearest half-integer is at least `1/6`, vastly larger
  than the relative error of IEEE-754 double division.  Hence Python's
  `round(x, 1)` (correctly-rounded, half-to-even) on the double agrees with
  exact half-to-even rounding of the rational value to one decimal place,
  and the returned double is the one Python prints as that one-decimal
  number (e.g. `93.3`).
* Pydantic field validation (`Field(ge=…, le=…)`) is modelled as a parse
  step that checks each field's bounds in declaration order and collects
  one error record per violated bound; the handler body runs only when the
  error list is empty, mirroring FastAPI returning a 422 otherwise.
-/

/-- Kind of a bound violation reported by pydantic for a numeric field
(`greater_than_equal` / `less_than_equal` constraint failures). -/
inductive BoundKind where
  | below_min : BoundKind
  | above_max : BoundKind
deriving DecidableEq, Repr

/-- One validation error record: the offending field and why it failed,
mirroring pydantic's per-field error entries. -/
structure FieldError where
  field : String
  kind : BoundKind
deriving DecidableEq, Repr

/-- Validation of a single integer field against inclusive bounds, as done
by `Field(ge=lo, le=hi)` in `MAPFormInput` (src/main.py lines 26-39). -/
def validateIntField (name : String) (v lo hi : Int) : List FieldError :=
  (if v < lo then [⟨name, BoundKind.below_min⟩] else []) ++
    (if hi < v then [⟨name, BoundKind.above_max⟩] else [])

/-- `MAPFormInput` (src/main.py lines 23-39): the validated request body.
`systolic_bp` carries bounds `ge=50, le=250`; `diastolic_bp` carries
`ge=30, le=150`; the bounds themselves are enforced by
`parseMAPFormInput` below. -/
structure MAPFormInput where
  systolic_bp : Int
  diastolic_bp : Int
deriving DecidableEq, Repr

/-- `MAPFormOutput` (src/main.py lines 42-49): the response body with the
single float field `map`. -/
structure MAPFormOutput where
  map : ℚ
deriving DecidableEq, Repr

/-- Round-half-to-even to the nearest integer, the rounding rule of
Python's `round` builtin on exact values. -/
def roundHalfToEven (q : ℚ) : Int :=
  if q - (⌊q⌋ : ℚ) < 1/2 then ⌊q⌋
  else if 1/2 < q - (⌊q⌋ : ℚ) then ⌊q⌋ + 1
  else if ⌊q⌋ % 2 = 0 then ⌊q⌋ else ⌊q⌋ + 1

/-- Python's `round(x, 1)`: round to the nearest multiple of `1/10`,
ties to even (src/main.py line 72). -/
def pyRound1 (q : ℚ) : ℚ :=
  (roundHalfToEven (10 * q) : ℚ) / 10

/-- The pydantic parse/validation step FastAPI performs on the form data
before the handler body runs: both fields are checked against their
declared bounds in declaration order and all violations are collected;
the handler receives a `MAPFormInput` only when no field failed. -/
def parseMAPFormInput (s d : Int) : Except (List FieldError) MAPFormInput :=
  let errs := validateIntField "systolic_bp" s 50 250 ++
    validateIntField "diastolic_bp" d 30 150
  if errs = [] then Except.ok ⟨s, d⟩ else Except.error errs

/-- The handler body of `calculate_map` (src/main.py lines 57-74): compute
`(systolic_bp + 2 * diastolic_bp) / 3`, round to one decimal place, wrap
in `MAPFormOutput`. -/
def calculate_map (data : MAPFormInput) : MAPFormOutput :=
  let map_value : ℚ := ((data.systolic_bp : ℚ) + 2 * (data.diastolic_bp : ℚ)) / 3
  let map_rounded := pyRound1 map_value
  ⟨map_rounded⟩

/-- The whole `/calculate` operation: validate the two submitted integers,
then run the handler body; a validation failure is surfaced unchanged and
no `MAPFormOutput` is produced. -/
def compute (s d : Int) : Except (List FieldError) MAPFormOutput :=
  (parseMAPFormInput s d).map calculate_map

/-- The fields named by the error branch of a `compute` result (empty on
success). -/
def errorFields : Except (List FieldError) MAPFormOutput → List String
  | Except.error errs => errs.map (·.field)
  | Except.ok _ => []

/-! ### Helper lemmas -/

lemma roundHalfToEven_eq_low (q : ℚ) (f : Int) (h1 : (f : ℚ) ≤ q)
    (h2 : q < (f : ℚ) + 1/2) : roundHalfToEven q = f := by
  have hf : ⌊q⌋ = f := Int.floor_eq_iff.mpr ⟨h1, by linarith⟩
  rw [roundHalfToEven, hf, if_pos (by linarith)]

lemma roundHalfToEven_eq_high (q : ℚ) (f : Int) (h1 : (f : ℚ) + 1/2 < q)
    (h2 : q < (f : ℚ) + 1) : roundHalfToEven q = f + 1 := by
  have hf : ⌊q⌋ = f := Int.floor_eq_iff.mpr ⟨by linarith, by linarith⟩
  rw [roundHalfToEven, hf, if_neg (not_lt.mpr (by linarith)), if_pos (by linarith)]

lemma roundHalfToEven_intCast (m : Int) : roundHalfToEven (m : ℚ) = m := by
  rw [roundHalfToEven]
  simp

lemma pyRound1_eq_low (q : ℚ) (m : Int) (h1 : (m : ℚ) ≤ 10 * q)
    (h2 : 10 * q < (m : ℚ) + 1/2) : pyRound1 q = (m : ℚ) / 10 := by
  rw [pyRound1, roundHalfToEven_eq_low (10 * q) m h1 h2]

lemma pyRound1_eq_high (q : ℚ) (m : Int) (h1 : (m : ℚ) + 1/2 < 10 * q)
    (h2 : 10 * q < (m : ℚ) + 1) : pyRound1 q = ((m : ℚ) + 1) / 10 := by
  rw [pyRound1, roundHalfToEven_eq_high (10 * q) m h1 h2]
  push_cast
  ring

lemma pyRound1_idem (q : ℚ) : pyRound1 (pyRound1 q) = pyRound1 q := by
  have h : (10 : ℚ) * pyRound1 q = ((roundHalfToEven (10 * q) : ℚ)) := by
    rw [pyRound1]; ring
  conv_lhs => rw [pyRound1]
  rw [h, roundHalfToEven_intCast, pyRound1]

lemma compute_eq_of_bounds (s d : Int) (hs1 : 50 ≤ s) (hs2 : s ≤ 250)
    (hd1 : 30 ≤ d) (hd2 : d ≤ 150) :
    compute s d = Except.ok ⟨pyRound1 (((s : ℚ) + 2 * (d : ℚ)) / 3)⟩ := by
  have h1 : ¬ s < 50 := by omega
  have h2 : ¬ 250 < s := by omega
  have h3 : ¬ d < 30 := by omega
  have h4 : ¬ 150 < d := by omega
  simp [compute, parseMAPFormInput, validateIntField, h1, h2, h3, h4,
    calculate_map, Except.map]

lemma parse_ok_inv (s d : Int) (inp : MAPFormInput)
    (h : parseMAPFormInput s d = Except.ok inp) :
    inp.systolic_bp = s ∧ inp.diastolic_bp = d ∧
      50 ≤ s ∧ s ≤ 250 ∧ 30 ≤ d ∧ d ≤ 150 := by
  unfold parseMAPFormInput validateIntField at h
  split_ifs at h <;> simp_all
  subst h
  exact ⟨rfl, rfl⟩

lemma compute_error_of (s d : Int)
    (hval : validateIntField "systolic_bp" s 50 250 ++
      validateIntField "diastolic_bp" d 30 150 ≠ []) :
    compute s d = Except.error (validateIntField "systolic_bp" s 50 250 ++
      validateIntField "diastolic_bp" d 30 150) := by
  simp [compute, parseMAPFormInput, hval, Except.map]

lemma mem_validateIntField_field (name : String) (v lo hi : Int)
    (h : v < lo ∨ hi < v) :
    ∃ e ∈ validateIntField name v lo hi, e.field = name := by
  unfold validateIntField
  rcases h with h | h
  · exact ⟨⟨name, BoundKind.below_min⟩, by simp [h], rfl⟩
  · exact ⟨⟨name, BoundKind.above_max⟩, by simp [h], rfl⟩

/-! ### Claims -/

/-- C1: for every integer systolic value in [50, 250] and diastolic value in
[30, 150], the `/calculate` operation succeeds and its `map` field is the
formula value `(s + 2*d)/3` rounded to one decimal place. -/
theorem compute_in_range_eq_rounded_formula (s d : Int)
    (hs1 : 50 ≤ s) (hs2 : s ≤ 250) (hd1 : 30 ≤ d) (hd2 : d ≤ 150) :
    compute s d = Except.ok ⟨pyRound1 (((s : ℚ) + 2 * (d : ℚ)) / 3)⟩ :=
  compute_eq_of_bounds s d hs1 hs2 hd1 hd2

theorem compute_in_range_eq_rounded_formula_witness :
    compute 120 80 =
      Except.ok ⟨pyRound1 ((((120 : Int) : ℚ) + 2 * ((80 : Int) : ℚ)) / 3)⟩ :=
  compute_in_range_eq_rounded_formula 120 80 (by decide) (by decide)
    (by decide) (by decide)

/-- C2 (counterexample): at systolic 250 and diastolic 150 the operation does
NOT return 216.7; the claimed boundary value is false on the code. -/
theorem compute_250_150_ne_2167_tenths :
    compute 250 150 ≠ Except.ok ⟨2167/10⟩ := by
  rw [compute_eq_of_bounds 250 150 (by decide) (by decide) (by decide) (by decide)]
  have hq : (((250 : Int) : ℚ) + 2 * ((150 : Int) : ℚ)) / 3 = 550/3 := by norm_num
  rw [hq, pyRound1_eq_low (550/3) 1833 (by push_cast; norm_num) (by push_cast; norm_num)]
  simp only [ne_eq, Except.ok.injEq, MAPFormOutput.mk.injEq]
  push_cast
  norm_num

/-- C2 (amended): at systolic 250 and diastolic 150 the operation returns a
Result whose map field is 183.3, the rounding of (250 + 2*150)/3. -/
theorem compute_250_150_eq_1833_tenths :
    compute 250 150 = Except.ok ⟨1833/10⟩ := by
  rw [compute_eq_of_bounds 250 150 (by decide) (by decide) (by decide) (by decide)]
  have hq : (((250 : Int) : ℚ) + 2 * ((150 : Int) : ℚ)) / 3 = 550/3 := by norm_num
  rw [hq, pyRound1_eq_low (550/3) 1833 (by push_cast; norm_num) (by push_cast; norm_num)]
  norm_num

/-- C3: a systolic value outside [50, 250] is rejected before the formula:
the result is a validation error naming `systolic_bp` and no Result is
produced, whatever the diastolic value is. -/
theorem systolic_out_of_range_rejected (s d : Int) (h : s < 50 ∨ 250 < s) :
    (compute s d).isOk = false ∧ "systolic_bp" ∈ errorFields (compute s d) := by
  obtain ⟨e, he, hf⟩ := mem_validateIntField_field "systolic_bp" s 50 250 h
  have hne : validateIntField "systolic_bp" s 50 250 ++
      validateIntField "diastolic_bp" d 30 150 ≠ [] := by
    intro hc
    rw [List.append_eq_nil] at hc
    rw [hc.1] at he
    exact absurd he (List.not_mem_nil e)
  rw [compute_error_of s d hne]
  exact ⟨rfl, by
    simp only [errorFields]
    exact List.mem_map.mpr ⟨e, List.mem_append_left _ he, hf⟩⟩

theorem systolic_out_of_range_rejected_witness :
    (compute 49 80).isOk = false ∧ "systolic_bp" ∈ errorFields (compute 49 80) :=
  systolic_out_of_range_rejected 49 80 (Or.inl (by decide))

/-- C4: a diastolic value outside [30, 150] is rejected before the formula:
the result is a validation error naming `diastolic_bp` and no Result is
produced, whatever the systolic value is. -/
theorem diastolic_out_of_range_rejected (s d : Int) (h : d < 30 ∨ 150 < d) :
    (compute s d).isOk = false ∧ "diastolic_bp" ∈ errorFields (compute s d) := by
  obtain ⟨e, he, hf⟩ := mem_validateIntField_field "diastolic_bp" d 30 150 h
  have hne : validateIntField "systolic_bp" s 50 250 ++
      validateIntField "diastolic_bp" d 30 150 ≠ [] := by
    intro hc
    rw [List.append_eq_nil] at hc
    rw [hc.2] at he
    exact absurd he (List.not_mem_nil e)
  rw [compute_error_of s d hne]
  exact ⟨rfl, by
    simp only [errorFields]
    exact List.mem_map.mpr ⟨e, List.mem_append_right _ he, hf⟩⟩

theorem diastolic_out_of_range_rejected_witness :
    (compute 120 29).isOk = false ∧ "diastolic_bp" ∈ errorFields (compute 120 29) :=
  diastolic_out_of_range_rejected 120 29 (Or.inl (by decide))

/-- C5: the formula only ever runs on a validated input: whenever parsing
succeeds, the produced `MAPFormInput` satisfies both bounds, and the whole
operation is exactly the handler body applied to that validated input. -/
theorem formula_only_on_validated_input (s d : Int) (inp : MAPFormInput)
    (h : parseMAPFormInput s d = Except.ok inp) :
    50 ≤ inp.systolic_bp ∧ inp.systolic_bp ≤ 250 ∧
      30 ≤ inp.diastolic_bp ∧ inp.diastolic_bp ≤ 150 ∧
      compute s d = Except.ok (calculate_map inp) := by
  obtain ⟨hes, hed, hs1, hs2, hd1, hd2⟩ := parse_ok_inv s d inp h
  refine ⟨by omega, by omega, by omega, by omega, ?_⟩
  rw [compute, h]
  rfl

theorem formula_only_on_validated_input_witness :
    50 ≤ (MAPFormInput.mk 120 80).systolic_bp ∧
      (MAPFormInput.mk 120 80).systolic_bp ≤ 250 ∧
      30 ≤ (MAPFormInput.mk 120 80).diastolic_bp ∧
      (MAPFormInput.mk 120 80).diastolic_bp ≤ 150 ∧
      compute 120 80 = Except.ok (calculate_map (MAPFormInput.mk 120 80)) :=
  formula_only_on_validated_input 120 80 (MAPFormInput.mk 120 80) (by rfl)

/-- C6: the worked example holds: systolic 120 and diastolic 80 produce a
Result whose map field is 93.3. -/
theorem compute_120_80_eq_933_tenths :
    compute 120 80 = Except.ok ⟨933/10⟩ := by
  rw [compute_eq_of_bounds 120 80 (by decide) (by decide) (by decide) (by decide)]
  have hq : (((120 : Int) : ℚ) + 2 * ((80 : Int) : ℚ)) / 3 = 280/3 := by norm_num
  rw [hq, pyRound1_eq_low (280/3) 933 (by push_cast; norm_num) (by push_cast; norm_num)]
  norm_num

/-- C7: the lower-bound scenario holds: systolic 50 and diastolic 30 produce
a Result whose map field is 36.7. -/
theorem compute_50_30_eq_367_tenths :
    compute 50 30 = Except.ok ⟨367/10⟩ := by
  rw [compute_eq_of_bounds 50 30 (by decide) (by decide) (by decide) (by decide)]
  have hq : (((50 : Int) : ℚ) + 2 * ((30 : Int) : ℚ)) / 3 = 110/3 := by norm_num
  rw [hq, pyRound1_eq_high (110/3) 366 (by push_cast; norm_num) (by push_cast; norm_num)]
  norm_num

/-- C8: the operation is deterministic and stateless: two invocations with
identical inputs yield identical outputs; the result depends on nothing but
the two input integers. -/
theorem compute_deterministic (s1 d1 s2 d2 : Int) (hs : s1 = s2) (hd : d1 = d2) :
    compute s1 d1 = compute s2 d2 := by
  rw [hs, hd]

theorem compute_deterministic_witness :
    compute 120 80 = compute 120 80 :=
  compute_deterministic 120 80 120 80 rfl rfl

/-- C9: for every in-range input pair, the returned map value is already
rounded to one decimal place: applying the implementation's one-decimal
rounding to the returned value leaves it unchanged. -/
theorem compute_result_already_rounded (s d : Int)
    (hs1 : 50 ≤ s) (hs2 : s ≤ 250) (hd1 : 30 ≤ d) (hd2 : d ≤ 150)
    (out : MAPFormOutput) (h : compute s d = Except.ok out) :
    pyRound1 out.map = out.map := by
  rw [compute_eq_of_bounds s d hs1 hs2 hd1 hd2] at h
  cases h
  exact pyRound1_idem _

theorem compute_result_already_rounded_witness :
    pyRound1 (MAPFormOutput.mk
        (pyRound1 ((((120 : Int) : ℚ) + 2 * ((80 : Int) : ℚ)) / 3))).map =
      (MAPFormOutput.mk
        (pyRound1 ((((120 : Int) : ℚ) + 2 * ((80 : Int) : ℚ)) / 3))).map :=
  compute_result_already_rounded 120 80 (by decide) (by decide) (by decide)
    (by decide) _ (compute_eq_of_bounds 120 80 (by decide) (by decide)
      (by decide) (by decide))

/-- C10: no cross-field consistency check exists: any in-range pair succeeds
even when the diastolic value is at least the systolic one, and in
particular systolic 50 with diastolic 150 yields the Result 116.7 rather
than an error. -/
theorem no_cross_field_check (s d : Int)
    (hs1 : 50 ≤ s) (hs2 : s ≤ 250) (hd1 : 30 ≤ d) (hd2 : d ≤ 150)
    (_hphys : s ≤ d) :
    (compute s d).isOk = true ∧ compute 50 150 = Except.ok ⟨1167/10⟩ := by
  constructor
  · rw [compute_eq_of_bounds s d hs1 hs2 hd1 hd2]
    rfl
  · rw [compute_eq_of_bounds 50 150 (by decide) (by decide) (by decide) (by decide)]
    have hq : (((50 : Int) : ℚ) + 2 * ((150 : Int) : ℚ)) / 3 = 350/3 := by norm_num
    rw [hq, pyRound1_eq_high (350/3) 1166 (by push_cast; norm_num) (by push_cast; norm_num)]
    norm_num

theorem no_cross_field_check_witness :
    (compute 50 150).isOk = true ∧ compute 50 150 = Except.ok ⟨1167/10⟩ :=
  no_cross_field_check 50 150 (by decide) (by decide) (by decide) (by decide)
    (by decide)
